import Mathlib

/-! CryptoAuth device object (`lib/atca_device.c`)

A shallow embedding of the device object of `lib/atca_device.c`: the
device-revision lookup (`devRevTable`, `atGetDeviceType`) and the device
lifecycle (`newATCADevice`, `atGetCommands`, `atGetIFace`,
`deleteATCADevice`).

* Pointers are `Option Nat`: `none` is `NULL`, `some a` is the address `a`.
* The heap is explicit (`World`): the live device structures, the live command
  objects, the live interface objects, and the sequence of external calls made
  so far.
* A function that may access invalid memory returns `Option`; `none` is the
  undefined behaviour of such an access.
* The `while` loop of `atGetDeviceType` is run with fuel: `none` means the loop
  has not left within the given number of iterations.
-/

namespace AtcaDevice

/-! ## Device-revision lookup -/

/-- Modelled from the spec: the enumeration `ATCADeviceType` is declared in a
header that is not part of the sources at hand; these are the five tags
`atca_device.c` uses. -/
inductive ATCADeviceType where
  | ATSHA204A
  | ATECC108A
  | ATECC508A
  | ATECC608A
  | ATCA_DEV_UNKNOWN
  deriving DecidableEq

open ATCADeviceType

/-- One byte (`uint8_t`). -/
abbrev Byte := Fin 256

/-- The entry type `struct DevRevEntry`: a device type and its 4 revision bytes. -/
structure DevRevEntry where
  devtype : ATCADeviceType
  devrev : List Byte
  deriving DecidableEq

/-- The table `devRevTable`; the last entry names no `devrev`, so its bytes are
zero-initialised. -/
def devRevTable : List DevRevEntry :=
  [ { devtype := ATECC608A, devrev := [0x00, 0x00, 0x60, 0x01] },
    { devtype := ATECC508A, devrev := [0x00, 0x00, 0x50, 0x00] },
    { devtype := ATECC108A, devrev := [0x80, 0x00, 0x10, 0x01] },
    { devtype := ATSHA204A, devrev := [0x00, 0x02, 0x00, 0x08] },
    { devtype := ATSHA204A, devrev := [0x00, 0x02, 0x00, 0x09] },
    { devtype := ATSHA204A, devrev := [0x00, 0x04, 0x05, 0x00] },
    { devtype := ATCA_DEV_UNKNOWN, devrev := [0x00, 0x00, 0x00, 0x00] } ]

/-- The 4 bytes `devrev_data` points to. -/
structure DevRevData where
  b0 : Byte
  b1 : Byte
  b2 : Byte
  b3 : Byte
  deriving DecidableEq

/-- The bytes of a `DevRevData` in memory order. -/
def DevRevData.bytes (d : DevRevData) : List Byte := [d.b0, d.b1, d.b2, d.b3]

/-- The library routine `memcmp` on the first `n` bytes of two buffers: zero
when they agree, otherwise the difference of the first pair of bytes that
differ. -/
def memcmp : List Byte → List Byte → Nat → Int
  | x :: xs, y :: ys, n + 1 =>
      if x = y then memcmp xs ys n else (x.val : Int) - (y.val : Int)
  | _, _, _ => 0

/-- The loop of `atGetDeviceType`, with the cursor `dre` as an index into
`devRevTable` and the local `devtype` still at its initial
`ATCA_DEV_UNKNOWN`.  One unit of fuel is one evaluation of the loop condition.
The body holds no statement that moves `dre`, so the next iteration runs with
the same cursor. -/
def atGetDeviceType_loop (devrev_data : DevRevData) (dre : Nat) :
    Nat → Option ATCADeviceType
  | 0 => none
  | fuel + 1 =>
      match devRevTable[dre]? with
      | none => none
      | some e =>
          if e.devtype ≠ ATCA_DEV_UNKNOWN then
            if memcmp devrev_data.bytes e.devrev 4 = 0 then
              some e.devtype
            else
              atGetDeviceType_loop devrev_data dre fuel
          else
            some ATCA_DEV_UNKNOWN

/-- The function `atGetDeviceType`: the cursor starts at the first entry of
`devRevTable`. -/
def atGetDeviceType (fuel : Nat) (devrev_data : DevRevData) :
    Option ATCADeviceType :=
  atGetDeviceType_loop devrev_data 0 fuel

/-! ## Device lifecycle -/

/-- Modelled from the spec: the configuration type `ATCAIfaceCfg` is declared in
a header that is not part of the sources at hand; it is "a configuration value
with at least a device-type field and interface-specific parameters". -/
structure ATCAIfaceCfg where
  devtype : ATCADeviceType
  params : Nat
  deriving DecidableEq

/-- The structure `struct atca_device`: the two owned sub-object pointers. -/
structure atca_device where
  mCommands : Option Nat
  mIface : Option Nat
  deriving DecidableEq

/-- An external call made by the device code, with its argument. The two
sub-object destructors are recorded with the object their argument refers to
at the time of the call. -/
inductive Call where
  | malloc
  | free (p : Nat)
  | newATCACommand (devtype : ATCADeviceType)
  | newATCAIface (cfg : ATCAIfaceCfg)
  | deleteATCACommand (obj : Option Nat)
  | deleteATCAIface (obj : Option Nat)
  deriving DecidableEq

/-- The explicit resource state: live device structures by address, live
command objects, live interface objects, and the external calls made so far
(oldest first). -/
structure World where
  devices : List (Nat × atca_device)
  commands : List Nat
  ifaces : List Nat
  calls : List Call
  deriving DecidableEq

/-- What the environment answers to the external calls of `newATCADevice`: the
address `malloc` returns (`none` when memory is exhausted) and the objects the
two sub-constructors return (`none` when they fail). -/
structure Env where
  mallocResult : Option Nat
  commandResult : ATCADeviceType → Option Nat
  ifaceResult : ATCAIfaceCfg → Option Nat

/-- Read the device structure at address `a`; `none` when no live device is
there. -/
def World.lookupDev (w : World) (a : Nat) : Option atca_device :=
  (w.devices.find? (fun e => e.1 == a)).map (fun e => e.2)

/-- Overwrite the first device structure stored at address `a`. -/
def storeAt (a : Nat) (d : atca_device) :
    List (Nat × atca_device) → List (Nat × atca_device)
  | [] => []
  | e :: es => if e.1 = a then (a, d) :: es else e :: storeAt a d es

/-- Write the device structure at address `a`; `none` when no live device is
there. -/
def World.storeDev (w : World) (a : Nat) (d : atca_device) : Option World :=
  match w.lookupDev a with
  | none => none
  | some _ => some { w with devices := storeAt a d w.devices }

/-- Record an external call. -/
def World.record (w : World) (c : Call) : World :=
  { w with calls := w.calls ++ [c] }

/-- The library routine `malloc(sizeof(struct atca_device))`: on success the
new block becomes live; its contents are unspecified and both fields are
written before they are read, the model starts them at `NULL`. -/
def malloc (x : Env) (w : World) : Option Nat × World :=
  match x.mallocResult with
  | none => (none, w.record Call.malloc)
  | some a =>
      (some a,
        { (w.record Call.malloc) with
          devices := (a, { mCommands := none, mIface := none }) :: w.devices })

/-- The library routine `free` on a device block: the block stops being live. -/
def free (p : Nat) (w : World) : World :=
  { (w.record (Call.free p)) with
    devices := w.devices.eraseP (fun e => e.1 == p) }

/-- Modelled from the spec: `newATCACommand` lives in the command module, which
is not part of the sources at hand. It constructs the Commands sub-object from
the device type; a constructed object is live, a failure is an absent value. -/
def newATCACommand (x : Env) (devtype : ATCADeviceType) (w : World) :
    Option Nat × World :=
  match x.commandResult devtype with
  | none => (none, w.record (Call.newATCACommand devtype))
  | some c =>
      (some c,
        { (w.record (Call.newATCACommand devtype)) with
          commands := c :: w.commands })

/-- Modelled from the spec: `newATCAIface` lives in the interface module, which
is not part of the sources at hand. It constructs the Interface sub-object
from the full configuration; a constructed object is live, a failure is an
absent value. -/
def newATCAIface (x : Env) (cfg : ATCAIfaceCfg) (w : World) :
    Option Nat × World :=
  match x.ifaceResult cfg with
  | none => (none, w.record (Call.newATCAIface cfg))
  | some i =>
      (some i,
        { (w.record (Call.newATCAIface cfg)) with ifaces := i :: w.ifaces })

/-- Modelled from the spec: `deleteATCACommand` lives in the command module,
which is not part of the sources at hand. It destroys the Commands object the
reference holds, if any, and leaves the reference absent. The result is the
new value of the reference and the new state. -/
def deleteATCACommand (ref : Option Nat) (w : World) : Option Nat × World :=
  match ref with
  | none => (none, w.record (Call.deleteATCACommand none))
  | some c =>
      (none,
        { (w.record (Call.deleteATCACommand (some c))) with
          commands := w.commands.erase c })

/-- Modelled from the spec: `deleteATCAIface` lives in the interface module,
which is not part of the sources at hand. It destroys the Interface object the
reference holds, if any, and leaves the reference absent. The result is the
new value of the reference and the new state. -/
def deleteATCAIface (ref : Option Nat) (w : World) : Option Nat × World :=
  match ref with
  | none => (none, w.record (Call.deleteATCAIface none))
  | some i =>
      (none,
        { (w.record (Call.deleteATCAIface (some i))) with
          ifaces := w.ifaces.erase i })

/-- The constructor `newATCADevice`. The result is the returned pointer and the
new state; `none` is an access through an invalid pointer: `malloc` is not
followed by a test of its result, so when it returned `NULL` the store of the
new command object into `ca_dev->mCommands` goes through the null pointer. -/
def newATCADevice (x : Env) (cfg : Option ATCAIfaceCfg) (w : World) :
    Option (Option Nat × World) :=
  match cfg with
  | none => some (none, w)
  | some cfg =>
      match malloc x w with
      | (p, w1) =>
        match newATCACommand x cfg.devtype w1 with
        | (c, w2) =>
          match p with
          | none => none
          | some ca_dev =>
            (w2.lookupDev ca_dev).bind fun d2 =>
            (w2.storeDev ca_dev { d2 with mCommands := c }).bind fun w3 =>
            match newATCAIface x cfg w3 with
            | (i, w4) =>
              (w4.lookupDev ca_dev).bind fun d4 =>
              (w4.storeDev ca_dev { d4 with mIface := i }).bind fun w5 =>
              (w5.lookupDev ca_dev).bind fun d5 =>
              if d5.mCommands = none ∨ d5.mIface = none then
                some (none, free ca_dev w5)
              else
                some (some ca_dev, w5)

/-- The accessor `atGetCommands`: the pointer read from the device and the
state after the call; `none` when `dev` is not a live device. -/
def atGetCommands (dev : Option Nat) (w : World) : Option (Option Nat × World) :=
  match dev with
  | none => none
  | some a => (w.lookupDev a).map fun d => (d.mCommands, w)

/-- The accessor `atGetIFace`: the pointer read from the device and the state
after the call; `none` when `dev` is not a live device. -/
def atGetIFace (dev : Option Nat) (w : World) : Option (Option Nat × World) :=
  match dev with
  | none => none
  | some a => (w.lookupDev a).map fun d => (d.mIface, w)

/-- The destructor `deleteATCADevice`, on the value `ca_dev` of the caller's
reference. The result is the new value of the caller's reference and the new
state; `none` is an access through an invalid pointer. -/
def deleteATCADevice (ca_dev : Option Nat) (w : World) :
    Option (Option Nat × World) :=
  match ca_dev with
  | none => some (none, w)
  | some dev =>
      (w.lookupDev dev).bind fun d0 =>
      match deleteATCACommand d0.mCommands w with
      | (c, w1) =>
        (w1.lookupDev dev).bind fun d1 =>
        (w1.storeDev dev { d1 with mCommands := c }).bind fun w2 =>
        (w2.lookupDev dev).bind fun d2 =>
        match deleteATCAIface d2.mIface w2 with
        | (i, w3) =>
          (w3.lookupDev dev).bind fun d3 =>
          (w3.storeDev dev { d3 with mIface := i }).bind fun w4 =>
          some (none, free dev w4)

/-- The live objects left when the object `obj` refers to, if any, is
released. -/
def release (obj : Option Nat) (live : List Nat) : List Nat :=
  match obj with
  | none => live
  | some c => live.erase c

/-- The live objects once the object `obj` refers to, if any, has been
constructed. -/
def acquire (obj : Option Nat) (live : List Nat) : List Nat :=
  match obj with
  | none => live
  | some c => c :: live

/-- The caller's reference is absent or holds the address of a live device. -/
def validRef (r : Option Nat) (w : World) : Prop :=
  ∀ a, r = some a → (w.lookupDev a).isSome = true

/-- Running `deleteATCADevice` a second time on the reference and state the
first run left. -/
def deleteATCADevice_twice (r : Option Nat) (w : World) :
    Option (Option Nat × World) :=
  (deleteATCADevice r w).bind fun p => deleteATCADevice p.1 p.2

/-! ## Sample data -/

/-- An empty state: nothing live, no call made. -/
def emptyWorld : World := { devices := [], commands := [], ifaces := [], calls := [] }

/-- A state with one live device at address 10 that owns the command object 20
and the interface object 30. -/
def liveWorld : World :=
  { devices := [(10, { mCommands := some 20, mIface := some 30 })],
    commands := [20], ifaces := [30], calls := [] }

/-- A configuration for an ATECC508A part. -/
def sampleCfg : ATCAIfaceCfg := { devtype := ATECC508A, params := 0 }

/-- An environment in which every external call succeeds. -/
def allSucceed : Env :=
  { mallocResult := some 10, commandResult := fun _ => some 20,
    ifaceResult := fun _ => some 30 }

/-- An environment in which the interface constructor fails. -/
def ifaceFails : Env :=
  { mallocResult := some 10, commandResult := fun _ => some 20,
    ifaceResult := fun _ => none }

/-- An environment in which the command constructor fails. -/
def commandFails : Env :=
  { mallocResult := some 10, commandResult := fun _ => none,
    ifaceResult := fun _ => some 30 }

/-- An environment in which memory is exhausted and the command constructor
fails. -/
def mallocFails : Env :=
  { mallocResult := none, commandResult := fun _ => none,
    ifaceResult := fun _ => some 30 }

end AtcaDevice

namespace AtcaDevice

open ATCADeviceType

/-! ## Lemmas on the device-revision lookup -/

/-- On buffers of `n` bytes, `memcmp` is zero exactly when the buffers agree. -/
theorem memcmp_eq_zero_iff (n : Nat) :
    ∀ xs ys : List Byte, xs.length = n → ys.length = n →
      (memcmp xs ys n = 0 ↔ xs = ys) := by
  induction n with
  | zero =>
      intro xs ys hx hy
      rw [List.length_eq_zero] at hx hy
      subst hx hy
      simp [memcmp]
  | succ n ih =>
      intro xs ys hx hy
      cases xs with
      | nil => simp at hx
      | cons x xs =>
        cases ys with
        | nil => simp at hy
        | cons y ys =>
          simp only [List.length_cons, Nat.add_right_cancel_iff] at hx hy
          by_cases hxy : x = y
          · subst hxy
            simpa [memcmp] using ih xs ys hx hy
          · have hv : (x.val : Int) - (y.val : Int) ≠ 0 := by
              intro h0
              apply hxy
              apply Fin.ext
              omega
            simp [memcmp, hxy, hv]

/-- Every table entry carries 4 revision bytes. -/
theorem devRevTable_devrev_length :
    ∀ e, e ∈ devRevTable → e.devrev.length = 4 := by
  decide

/-- One iteration at the first table entry: the loop leaves with `ATECC608A`
when the data are that entry's bytes, and otherwise runs again with the cursor
still on the first entry. -/
theorem atGetDeviceType_loop_first (b : DevRevData) (fuel : Nat) :
    atGetDeviceType_loop b 0 (fuel + 1) =
      if b.bytes = [0x00, 0x00, 0x60, 0x01] then some ATECC608A
      else atGetDeviceType_loop b 0 fuel := by
  have hm := memcmp_eq_zero_iff 4 b.bytes [0x00, 0x00, 0x60, 0x01] rfl rfl
  by_cases h : b.bytes = [0x00, 0x00, 0x60, 0x01]
  · have h0 : memcmp b.bytes [0x00, 0x00, 0x60, 0x01] 4 = 0 := hm.mpr h
    rw [if_pos h]
    simp [atGetDeviceType_loop, devRevTable, h0]
  · have h0 : ¬ memcmp b.bytes [0x00, 0x00, 0x60, 0x01] 4 = 0 := fun e => h (hm.mp e)
    rw [if_neg h]
    simp [atGetDeviceType_loop, devRevTable, h0]

/-- Data other than the first entry's bytes never leave the loop. -/
theorem atGetDeviceType_stuck (b : DevRevData)
    (h : b.bytes ≠ [0x00, 0x00, 0x60, 0x01]) :
    ∀ fuel, atGetDeviceType fuel b = none := by
  intro fuel
  unfold atGetDeviceType
  induction fuel with
  | zero => rfl
  | succ n ih => rw [atGetDeviceType_loop_first, if_neg h, ih]

/-- Whatever the cursor, a value the loop returns is the sentinel or the type
of a table entry whose bytes are the data. -/
theorem atGetDeviceType_loop_sound (b : DevRevData) (dre : Nat) :
    ∀ fuel t, atGetDeviceType_loop b dre fuel = some t →
      t = ATCA_DEV_UNKNOWN ∨
        ∃ e, e ∈ devRevTable ∧ e.devtype = t ∧ e.devrev = b.bytes := by
  intro fuel
  induction fuel with
  | zero => intro t h; simp [atGetDeviceType_loop] at h
  | succ n ih =>
      intro t h
      unfold atGetDeviceType_loop at h
      cases he : devRevTable[dre]? with
      | none => simp [he] at h
      | some e =>
          rw [he] at h
          simp only at h
          have hmem : e ∈ devRevTable := List.getElem?_mem he
          have hlen : e.devrev.length = 4 := devRevTable_devrev_length e hmem
          by_cases hs : e.devtype ≠ ATCA_DEV_UNKNOWN
          · rw [if_pos hs] at h
            by_cases hc : memcmp b.bytes e.devrev 4 = 0
            · rw [if_pos hc] at h
              right
              refine ⟨e, hmem, Option.some.inj h, ?_⟩
              exact ((memcmp_eq_zero_iff 4 b.bytes e.devrev rfl hlen).mp hc).symm
            · rw [if_neg hc] at h
              exact ih t h
          · rw [if_neg hs] at h
            left
            exact (Option.some.inj h).symm

/-! ## Lemmas on the heap -/

/-- A device written at a live address is what a later read finds there. -/
theorem find_storeAt (a : Nat) (d : atca_device) :
    ∀ l : List (Nat × atca_device),
      (l.find? (fun e => e.1 == a)).isSome = true →
      (storeAt a d l).find? (fun e => e.1 == a) = some (a, d) := by
  intro l
  induction l with
  | nil => intro h; simp at h
  | cons e es ih =>
      intro h
      by_cases hk : e.1 = a
      · simp [storeAt, hk]
      · have hk2 : (e.1 == a) = false := by simpa using hk
        rw [List.find?_cons, hk2] at h
        simp only [storeAt, if_neg hk]
        rw [List.find?_cons, hk2]
        exact ih h

/-- Releasing the block at `a` after a write at `a` leaves what releasing it
before the write leaves. -/
theorem eraseP_storeAt (a : Nat) (d : atca_device) :
    ∀ l : List (Nat × atca_device),
      (storeAt a d l).eraseP (fun e => e.1 == a) = l.eraseP (fun e => e.1 == a) := by
  intro l
  induction l with
  | nil => rfl
  | cons e es ih =>
      by_cases hk : e.1 = a
      · simp [storeAt, hk]
      · have hk2 : (e.1 == a) = false := by simpa using hk
        simp only [storeAt, if_neg hk]
        rw [List.eraseP_cons, List.eraseP_cons, hk2]
        simp [ih]

/-- A read after a write at a live address gives the written structure. -/
theorem lookupDev_storeDev (w w2 : World) (a : Nat) (d : atca_device)
    (h : w.storeDev a d = some w2) : w2.lookupDev a = some d := by
  unfold World.storeDev at h
  cases hl : w.lookupDev a with
  | none => simp [hl] at h
  | some d0 =>
      rw [hl] at h
      simp only [Option.some.injEq] at h
      subst h
      have hs : (w.devices.find? (fun e => e.1 == a)).isSome = true := by
        unfold World.lookupDev at hl
        cases hf : w.devices.find? (fun e => e.1 == a) with
        | none => simp [hf] at hl
        | some _ => rfl
      simp [World.lookupDev, find_storeAt a d w.devices hs]

/-- A write at a live address succeeds and changes only the device list. -/
theorem storeDev_of_lookupDev (w : World) (a : Nat) (d0 d : atca_device)
    (h : w.lookupDev a = some d0) :
    w.storeDev a d = some { w with devices := storeAt a d w.devices } := by
  simp [World.storeDev, h]

/-! ## Lemmas on the lifecycle -/

/-- The state `deleteATCADevice` leaves for a live device `d` at address `a`. -/
theorem deleteATCADevice_live (w : World) (a : Nat) (d : atca_device)
    (h : w.lookupDev a = some d) :
    deleteATCADevice (some a) w =
      some (none,
        { devices := w.devices.eraseP (fun e => e.1 == a),
          commands := release d.mCommands w.commands,
          ifaces := release d.mIface w.ifaces,
          calls := w.calls ++
            [Call.deleteATCACommand d.mCommands, Call.deleteATCAIface d.mIface,
              Call.free a] }) := by
  have hs : (w.devices.find? (fun e => e.1 == a)).isSome = true := by
    unfold World.lookupDev at h
    cases hf : w.devices.find? (fun e => e.1 == a) with
    | none => simp [hf] at h
    | some _ => rfl
  have hfind : ∃ e, w.devices.find? (fun e => e.1 == a) = some e ∧ e.2 = d := by
    unfold World.lookupDev at h
    cases hf : w.devices.find? (fun e => e.1 == a) with
    | none => simp [hf] at h
    | some e => exact ⟨e, rfl, by simpa [hf] using h⟩
  obtain ⟨e, he, hed⟩ := hfind
  obtain ⟨c, i⟩ := d
  cases c <;> cases i <;>
    simp [deleteATCADevice, deleteATCACommand, deleteATCAIface, World.lookupDev,
      World.storeDev, World.record, free, release, he, hed, find_storeAt,
      eraseP_storeAt, hs]

/-- The result of `newATCADevice` on a present configuration when `malloc`
returns the block `a`. -/
theorem newATCADevice_allocated (x : Env) (cfg : ATCAIfaceCfg) (w : World)
    (a : Nat) (hm : x.mallocResult = some a) :
    newATCADevice x (some cfg) w =
      if x.commandResult cfg.devtype = none ∨ x.ifaceResult cfg = none then
        some (none,
          { devices := w.devices,
            commands := acquire (x.commandResult cfg.devtype) w.commands,
            ifaces := acquire (x.ifaceResult cfg) w.ifaces,
            calls := w.calls ++
              [Call.malloc, Call.newATCACommand cfg.devtype, Call.newATCAIface cfg,
                Call.free a] })
      else
        some (some a,
          { devices :=
              (a, { mCommands := x.commandResult cfg.devtype,
                    mIface := x.ifaceResult cfg }) :: w.devices,
            commands := acquire (x.commandResult cfg.devtype) w.commands,
            ifaces := acquire (x.ifaceResult cfg) w.ifaces,
            calls := w.calls ++
              [Call.malloc, Call.newATCACommand cfg.devtype, Call.newATCAIface cfg] }) := by
  cases hc : x.commandResult cfg.devtype <;> cases hi : x.ifaceResult cfg <;>
    simp [newATCADevice, malloc, newATCACommand, newATCAIface, World.lookupDev,
      World.storeDev, World.record, free, acquire, storeAt, hm, hc, hi]

/-- With `malloc` returning `NULL`, `newATCADevice` on a present configuration
stores through the null pointer. -/
theorem newATCADevice_no_memory (x : Env) (cfg : ATCAIfaceCfg) (w : World)
    (hm : x.mallocResult = none) : newATCADevice x (some cfg) w = none := by
  simp [newATCADevice, malloc, hm]

/-- The destructor returns an absent reference whenever it returns. -/
theorem deleteATCADevice_ref (r : Option Nat) (w : World) (r2 : Option Nat)
    (w2 : World) (h : deleteATCADevice r w = some (r2, w2)) : r2 = none := by
  cases r with
  | none =>
      simp only [deleteATCADevice, Option.some.injEq, Prod.mk.injEq] at h
      exact h.1.symm
  | some a =>
      cases hl : w.lookupDev a with
      | none => simp [deleteATCADevice, hl] at h
      | some d =>
          rw [deleteATCADevice_live w a d hl] at h
          simp only [Option.some.injEq, Prod.mk.injEq] at h
          exact h.1.symm

/-! ## The claims -/

/-- C1 (evaluation of the code): on the first table entry's bytes
`atGetDeviceType` returns `ATECC608A` at the first test of the loop condition,
but on the bytes of each of the other five entries the loop never leaves,
whatever the number of iterations: no device type is returned for
`{0x00,0x00,0x50,0x00}`, `{0x80,0x00,0x10,0x01}`, `{0x00,0x02,0x00,0x08}`,
`{0x00,0x02,0x00,0x09}` and `{0x00,0x04,0x05,0x00}`. -/
theorem atGetDeviceType_table_entries :
    atGetDeviceType 1 ⟨0x00, 0x00, 0x60, 0x01⟩ = some ATECC608A ∧
    (∀ fuel, atGetDeviceType fuel ⟨0x00, 0x00, 0x50, 0x00⟩ = none) ∧
    (∀ fuel, atGetDeviceType fuel ⟨0x80, 0x00, 0x10, 0x01⟩ = none) ∧
    (∀ fuel, atGetDeviceType fuel ⟨0x00, 0x02, 0x00, 0x08⟩ = none) ∧
    (∀ fuel, atGetDeviceType fuel ⟨0x00, 0x02, 0x00, 0x09⟩ = none) ∧
    (∀ fuel, atGetDeviceType fuel ⟨0x00, 0x04, 0x05, 0x00⟩ = none) := by
  refine ⟨by decide, ?_, ?_, ?_, ?_, ?_⟩ <;>
    exact atGetDeviceType_stuck _ (by decide)

/-- C2 (evaluation of the code): the bytes `{0x00,0x00,0x00,0x01}` differ from
the signature of every table entry, and on them `atGetDeviceType` returns
nothing, whatever the number of iterations: `ATCA_DEV_UNKNOWN` is not
returned. -/
theorem atGetDeviceType_no_match :
    (devRevTable.all fun e =>
        decide (e.devrev ≠ (DevRevData.mk 0x00 0x00 0x00 0x01).bytes)) = true ∧
    ∀ fuel, atGetDeviceType fuel ⟨0x00, 0x00, 0x00, 0x01⟩ = none :=
  ⟨by decide, atGetDeviceType_stuck _ (by decide)⟩

/-- C3: `newATCADevice` on an absent configuration returns an absent device
and leaves the resource state as it was: the live devices, command objects
and interface objects are unchanged and no external call (`malloc`,
`newATCACommand`, `newATCAIface`) is added to the record. -/
theorem newATCADevice_absent_cfg (x : Env) (w : World) :
    newATCADevice x none w = some (none, w) :=
  rfl

/-- C4: for a present configuration, when `malloc` returns a block `a` and the
two sub-constructors return the objects `c` and `i`, `newATCADevice` returns
the device `a`, `atGetCommands` of it is `c`, `atGetIFace` of it is `i`, and
both accessors leave the state, the device included, as it was. -/
theorem newATCADevice_valid (x : Env) (cfg : ATCAIfaceCfg) (w : World)
    (a c i : Nat) (hm : x.mallocResult = some a)
    (hc : x.commandResult cfg.devtype = some c) (hi : x.ifaceResult cfg = some i) :
    ∃ w2, newATCADevice x (some cfg) w = some (some a, w2) ∧
      atGetCommands (some a) w2 = some (some c, w2) ∧
      atGetIFace (some a) w2 = some (some i, w2) := by
  have hne : ¬ (x.commandResult cfg.devtype = none ∨ x.ifaceResult cfg = none) := by
    simp [hc, hi]
  rw [newATCADevice_allocated x cfg w a hm, if_neg hne]
  refine ⟨_, rfl, ?_, ?_⟩ <;>
    simp [atGetCommands, atGetIFace, World.lookupDev, hc, hi]

/-- Witness for C4: every external call succeeds on the sample configuration. -/
theorem newATCADevice_valid_witness :
    ∃ w2, newATCADevice allSucceed (some sampleCfg) emptyWorld = some (some 10, w2) ∧
      atGetCommands (some 10) w2 = some (some 20, w2) ∧
      atGetIFace (some 10) w2 = some (some 30, w2) :=
  newATCADevice_valid allSucceed sampleCfg emptyWorld 10 20 30 rfl rfl rfl

/-- C5, as stated, fails: with `malloc` returning `NULL` and `newATCACommand`
yielding an absent object, `newATCADevice` does not return absent, it stores
through the null pointer. -/
theorem newATCADevice_sub_absent_no_memory :
    ¬ ((mallocFails.commandResult sampleCfg.devtype = none ∨
          mallocFails.ifaceResult sampleCfg = none) →
        ∃ w2, newATCADevice mallocFails (some sampleCfg) emptyWorld = some (none, w2)) := by
  intro h
  obtain ⟨w2, hw⟩ := h (Or.inl rfl)
  rw [newATCADevice_no_memory mallocFails sampleCfg emptyWorld rfl] at hw
  exact Option.noConfusion hw

/-- C5, amended: for every configuration for which the device allocation
succeeds, if `newATCACommand` or `newATCAIface` yields an absent object then
`newATCADevice` returns absent; and, whatever the allocation does, every
device `newATCADevice` returns as non-absent has both `mCommands` and `mIface`
non-absent. -/
theorem newATCADevice_invariant (x : Env) (w : World) :
    (∀ cfg : ATCAIfaceCfg, x.mallocResult ≠ none →
      (x.commandResult cfg.devtype = none ∨ x.ifaceResult cfg = none) →
      ∃ w2, newATCADevice x (some cfg) w = some (none, w2)) ∧
    (∀ (cfg : Option ATCAIfaceCfg) (dev : Nat) (w2 : World),
      newATCADevice x cfg w = some (some dev, w2) →
      ∃ d, w2.lookupDev dev = some d ∧ d.mCommands ≠ none ∧ d.mIface ≠ none) := by
  constructor
  · intro cfg hm hsub
    cases hma : x.mallocResult with
    | none => exact absurd hma hm
    | some a =>
        rw [newATCADevice_allocated x cfg w a hma, if_pos hsub]
        exact ⟨_, rfl⟩
  · intro cfg dev w2 h
    cases cfg with
    | none => simp [newATCADevice] at h
    | some cfg =>
        cases hma : x.mallocResult with
        | none => simp [newATCADevice_no_memory x cfg w hma] at h
        | some a =>
            rw [newATCADevice_allocated x cfg w a hma] at h
            by_cases hsub : x.commandResult cfg.devtype = none ∨ x.ifaceResult cfg = none
            · simp [if_pos hsub] at h
            · rw [if_neg hsub] at h
              simp only [Option.some.injEq, Prod.mk.injEq] at h
              obtain ⟨ha, hw⟩ := h
              subst ha hw
              refine ⟨{ mCommands := x.commandResult cfg.devtype,
                        mIface := x.ifaceResult cfg }, ?_, ?_, ?_⟩
              · simp [World.lookupDev]
              · exact fun e => hsub (Or.inl e)
              · exact fun e => hsub (Or.inr e)

/-- Witness for C5, amended: with the allocation succeeding and the interface
constructor failing the constructor returns absent, and the device returned
when every call succeeds has both sub-objects. -/
theorem newATCADevice_invariant_witness :
    (∃ w2, newATCADevice ifaceFails (some sampleCfg) emptyWorld = some (none, w2)) ∧
    (∃ w2, newATCADevice allSucceed (some sampleCfg) emptyWorld = some (some 10, w2) ∧
      ∃ d, w2.lookupDev 10 = some d ∧ d.mCommands ≠ none ∧ d.mIface ≠ none) :=
  ⟨(newATCADevice_invariant ifaceFails emptyWorld).1 sampleCfg (by decide)
      (Or.inr rfl),
    ⟨_, rfl, (newATCADevice_invariant allSucceed emptyWorld).2 (some sampleCfg) 10 _ rfl⟩⟩

/-- C6 (evaluation of the code): on the partial-failure path only the device
block is released. Starting from nothing live, when the interface constructor
fails the command object 20 is still live after the call, and when the command
constructor fails the interface object 30 is still live after the call; the
record shows the one call to `free` and no call to a sub-object destructor. -/
theorem newATCADevice_partial_failure_leaks :
    newATCADevice ifaceFails (some sampleCfg) emptyWorld =
      some (none,
        { devices := [], commands := [20], ifaces := [],
          calls := [Call.malloc, Call.newATCACommand ATECC508A,
            Call.newATCAIface sampleCfg, Call.free 10] }) ∧
    newATCADevice commandFails (some sampleCfg) emptyWorld =
      some (none,
        { devices := [], commands := [], ifaces := [30],
          calls := [Call.malloc, Call.newATCACommand ATECC508A,
            Call.newATCAIface sampleCfg, Call.free 10] }) :=
  ⟨rfl, rfl⟩

/-- C7: for a caller reference that is absent or holds a live device,
`deleteATCADevice` returns with the reference absent. If the reference was
absent the state is unchanged, so no call is made. If it held the device `d`
at address `a`, the calls added to the record are exactly
`deleteATCACommand` on `d`'s commands, then `deleteATCAIface` on `d`'s
interface, then `free` on `a`, and the command object, the interface object
and the device block are released. -/
theorem deleteATCADevice_post (r : Option Nat) (w : World) (h : validRef r w) :
    ∃ w2, deleteATCADevice r w = some (none, w2) ∧
      (r = none → w2 = w) ∧
      (∀ a, r = some a → ∃ d, w.lookupDev a = some d ∧
        w2.calls = w.calls ++
          [Call.deleteATCACommand d.mCommands, Call.deleteATCAIface d.mIface,
            Call.free a] ∧
        w2.commands = release d.mCommands w.commands ∧
        w2.ifaces = release d.mIface w.ifaces ∧
        w2.devices = w.devices.eraseP (fun e => e.1 == a)) := by
  cases r with
  | none => exact ⟨w, rfl, fun _ => rfl, fun a ha => Option.noConfusion ha⟩
  | some a =>
      have hv := h a rfl
      cases hl : w.lookupDev a with
      | none => simp [hl] at hv
      | some d =>
          refine ⟨_, deleteATCADevice_live w a d hl, fun e => Option.noConfusion e, ?_⟩
          intro b hb
          cases hb
          exact ⟨d, hl, rfl, rfl, rfl, rfl⟩

/-- Witness for C7: the device at address 10 of the sample state. -/
theorem deleteATCADevice_post_witness :
    validRef (some 10) liveWorld ∧
    ∃ w2, deleteATCADevice (some 10) liveWorld = some (none, w2) ∧
      (some 10 = none → w2 = liveWorld) ∧
      (∀ a, some 10 = some a → ∃ d, liveWorld.lookupDev a = some d ∧
        w2.calls = liveWorld.calls ++
          [Call.deleteATCACommand d.mCommands, Call.deleteATCAIface d.mIface,
            Call.free a] ∧
        w2.commands = release d.mCommands liveWorld.commands ∧
        w2.ifaces = release d.mIface liveWorld.ifaces ∧
        w2.devices = liveWorld.devices.eraseP (fun e => e.1 == a)) :=
  ⟨fun a ha => by cases ha; rfl,
    deleteATCADevice_post (some 10) liveWorld (fun a ha => by cases ha; rfl)⟩

/-- C8: for every caller reference and state, running `deleteATCADevice` twice
gives exactly what running it once gives; a call on an absent reference
returns with the reference and the state unchanged; and for a reference that
is absent or holds a live device both the single and the double run return,
with the reference absent and the same state. -/
theorem deleteATCADevice_idempotent (r : Option Nat) (w : World) :
    deleteATCADevice_twice r w = deleteATCADevice r w ∧
    (∀ w2, deleteATCADevice none w2 = some (none, w2)) ∧
    (validRef r w → ∃ w2, deleteATCADevice r w = some (none, w2) ∧
      deleteATCADevice_twice r w = some (none, w2)) := by
  have htwice : deleteATCADevice_twice r w = deleteATCADevice r w := by
    unfold deleteATCADevice_twice
    cases h1 : deleteATCADevice r w with
    | none => rfl
    | some p =>
        obtain ⟨r2, w2⟩ := p
        have hr := deleteATCADevice_ref r w r2 w2 h1
        subst hr
        rfl
  refine ⟨htwice, fun _ => rfl, ?_⟩
  intro hv
  cases r with
  | none => exact ⟨w, rfl, rfl⟩
  | some a =>
      have hva := hv a rfl
      cases hl : w.lookupDev a with
      | none => simp [hl] at hva
      | some d =>
          refine ⟨_, deleteATCADevice_live w a d hl, ?_⟩
          rw [htwice]
          exact deleteATCADevice_live w a d hl

/-- Witness for C8: the device at address 10 of the sample state is destroyed
by the single and by the double run, with the same final state. -/
theorem deleteATCADevice_idempotent_witness :
    validRef (some 10) liveWorld ∧
    ∃ w2, deleteATCADevice (some 10) liveWorld = some (none, w2) ∧
      deleteATCADevice_twice (some 10) liveWorld = some (none, w2) :=
  ⟨fun a ha => by cases ha; rfl,
    (deleteATCADevice_idempotent (some 10) liveWorld).2.2
      (fun a ha => by cases ha; rfl)⟩

/-- C9 (evaluation of the code): `atGetDeviceType` is not total. The loop body
leaves the cursor on the first entry, so on the bytes `{0x00,0x00,0x00,0x01}`
no number of iterations returns a value. -/
theorem atGetDeviceType_not_total :
    ¬ ∀ b : DevRevData, ∃ fuel t, atGetDeviceType fuel b = some t := by
  intro h
  obtain ⟨fuel, t, ht⟩ := h ⟨0x00, 0x00, 0x00, 0x01⟩
  rw [atGetDeviceType_stuck _ (by decide) fuel] at ht
  exact Option.noConfusion ht

/-- C10: whenever `atGetDeviceType` returns a value `t` on the bytes `b`,
either `t` is `ATCA_DEV_UNKNOWN` or `devRevTable` holds an entry of type `t`
whose revision bytes are `b`; and `t` is one of `ATECC608A`, `ATECC508A`,
`ATECC108A`, `ATSHA204A`, `ATCA_DEV_UNKNOWN`. -/
theorem atGetDeviceType_sound (fuel : Nat) (b : DevRevData) (t : ATCADeviceType)
    (h : atGetDeviceType fuel b = some t) :
    (t = ATCA_DEV_UNKNOWN ∨
      ∃ e, e ∈ devRevTable ∧ e.devtype = t ∧ e.devrev = b.bytes) ∧
    t ∈ [ATECC608A, ATECC508A, ATECC108A, ATSHA204A, ATCA_DEV_UNKNOWN] := by
  refine ⟨atGetDeviceType_loop_sound b 0 fuel t h, ?_⟩
  cases t <;> decide

/-- Witness for C10: the first entry's bytes, one test of the loop condition. -/
theorem atGetDeviceType_sound_witness :
    atGetDeviceType 1 ⟨0x00, 0x00, 0x60, 0x01⟩ = some ATECC608A ∧
    ((ATECC608A = ATCA_DEV_UNKNOWN ∨
      ∃ e, e ∈ devRevTable ∧ e.devtype = ATECC608A ∧
        e.devrev = (DevRevData.mk 0x00 0x00 0x60 0x01).bytes) ∧
    ATECC608A ∈ [ATECC608A, ATECC508A, ATECC108A, ATSHA204A, ATCA_DEV_UNKNOWN]) :=
  ⟨by decide, atGetDeviceType_sound 1 ⟨0x00, 0x00, 0x60, 0x01⟩ ATECC608A (by decide)⟩

end AtcaDevice
